import Mathlib

/-!
Shallow embedding of the credential-issuance / session-management core of the
repository (an Express + Drizzle user-registration service), together with
proofs of the specified properties.

Embedded source files:
* `src/services/auth.service.js` — `hashPassword` (bcrypt wrapper) and the
  `signup` controller;
* `src/utils/jwt.js` — the `jwttoken` object wrapping the `jsonwebtoken`
  library with `JWT_SECRET` and a fixed `expiresIn: '1d'`;
* external npm libraries (`bcrypt`, `jsonwebtoken`) and repository modules that
  are documented (WARP.md) but whose source is not included
  (`createUser`, `src/utils/cookies.js`, `src/config/logger.js`) are modelled
  from the spec, as marked on each definition.

JavaScript exceptions are modelled with an explicit error type distinguishing
ordinary `Error` objects from `TypeError`s raised by the runtime (e.g. by
invoking a value that is not a function, or applying `new` to a value that is
not a constructor); fallible operations return `Except JsError _`.
-/

/-- A thrown JavaScript value: an `Error` object with a message, or a
`TypeError` raised by the runtime. -/
inductive JsError where
  | errorObj (message : String)
  | typeError (message : String)
deriving DecidableEq, Repr

/-- A JavaScript value as far as the `new` operator is concerned: either a
plain object such as a caught `Error` instance (not a constructor), or a
constructor function such as the global `Error`. -/
inductive JsValue where
  | errorInstance (message : String)
  | constructorFn (name : String)
deriving DecidableEq, Repr

/-- JavaScript semantics of `new v(message)`: applying `new` to a value that is
not a constructor raises a `TypeError`; applying it to the `Error` constructor
builds an `Error` object carrying the message. The result is the thrown
error. -/
def jsNew (v : JsValue) (message : String) : JsError :=
  match v with
  | .errorInstance _ => .typeError "error is not a constructor"
  | .constructorFn _ => .errorObj message

/-- Modelled from the spec: the logging collaborator (`src/config/logger.js`,
not included under the sources) is a Winston logger; WARP.md documents the
standard Winston level methods plus `log`. Accessing any other property yields
`undefined`, and invoking `undefined` raises a `TypeError`. -/
def loggerHasMethod (name : String) : Bool :=
  ["error", "warn", "info", "http", "verbose", "debug", "silly", "log"].contains name

/-! ## Token Issuer/Verifier (`src/utils/jwt.js` and the jsonwebtoken library) -/

/-- The session-token payload signed by the application: account id and role
(spec 4.5: payload `{id, role}`). -/
structure Payload where
  id : Nat
  role : String
deriving DecidableEq, Repr

/-- A decoded JSON Web Token: the application payload, the issued-at and
expiry claims (seconds), and the signature part. -/
structure JwtToken where
  payload : Payload
  iat : Nat
  exp : Nat
  sig : String
deriving DecidableEq, Repr

/-- Model of the HMAC signature computed by the jsonwebtoken library over the
payload and the registered time claims, keyed by the secret. -/
def jwtMac (secret : String) (p : Payload) (iat exp : Nat) : String :=
  secret ++ "." ++ toString p.id ++ "." ++ p.role ++ "." ++ toString iat ++ "." ++ toString exp

/-- A token string handed to the verifier: either the encoding of a decoded
token, or a string that does not parse as a JWT at all. -/
inductive TokenInput where
  | wellFormed (t : JwtToken)
  | malformed (s : String)
deriving DecidableEq, Repr

/-- Model of `jwt.sign(payload, secret, {expiresIn: '1d'})` from the
jsonwebtoken library: fails when the secret is absent, otherwise emits a token
with `iat = now`, `exp = now + 86400` (one day in seconds) and a signature
over payload and claims. -/
def jwtLibSign (p : Payload) (secret : Option String) (now : Nat) : Except String JwtToken :=
  match secret with
  | none => .error "secretOrPrivateKey must have a value"
  | some s => .ok { payload := p, iat := now, exp := now + 86400, sig := jwtMac s p now (now + 86400) }

/-- Model of `jwt.verify(token, secret)` from the jsonwebtoken library: fails
on an absent secret, a malformed token, a signature mismatch, or an expired
token (`exp ≤ now`); otherwise returns the decoded payload. -/
def jwtLibVerify (inp : TokenInput) (secret : Option String) (now : Nat) : Except String Payload :=
  match secret with
  | none => .error "secret or public key must be provided"
  | some s =>
    match inp with
    | .malformed _ => .error "jwt malformed"
    | .wellFormed t =>
      if t.sig = jwtMac s t.payload t.iat t.exp then
        if t.exp ≤ now then .error "jwt expired" else .ok t.payload
      else .error "invalid signature"

/-- Embedding of `jwttoken.sign` from `src/utils/jwt.js`: calls the library
sign; in the catch clause the source invokes `logger.e(...)`, and the Winston
logger has no method `e`, so the catch itself raises a `TypeError` before the
`throw new Error('Failed to authenticat')` line is reached. -/
def jwttoken.sign (secret : Option String) (now : Nat) (p : Payload) : Except JsError JwtToken :=
  match jwtLibSign p secret now with
  | .ok t => .ok t
  | .error _ =>
    if loggerHasMethod "e" then .error (.errorObj "Failed to authenticat")
    else .error (.typeError "logger.e is not a function")

/-- Embedding of `jwttoken.verify` from `src/utils/jwt.js`: calls the library
verify; on any library failure the catch clause logs via `logger.error` (a
real method) and throws the single `Error('Failed to verify')`. -/
def jwttoken.verify (secret : Option String) (now : Nat) (inp : TokenInput) : Except JsError Payload :=
  match jwtLibVerify inp secret now with
  | .ok p => .ok p
  | .error _ => .error (.errorObj "Failed to verify")

/-! ## Password Hasher (`hashPassword` in `src/services/auth.service.js` and
the bcrypt library) -/

/-- Stand-in for the bcrypt key-derivation core: a length-preserving scramble
of its input, standing for the one-way transform (one-wayness itself is not
modelled). -/
def scramble (s : String) : String :=
  String.mk (s.data.map (fun c => Char.ofNat (c.toNat + 1)))

/-- Model of the bcrypt derivation of the hash part from password, salt and
cost factor. -/
def bcryptKdf (password salt : String) (cost : Nat) : String :=
  scramble (salt ++ toString cost ++ password)

/-- A bcrypt digest in parsed form: version tag, cost factor, salt and hash
part. The digest string that `bcrypt.hash` resolves with is `renderDigest` of
this structure (bcrypt digests are self-describing: the string embeds version,
cost and salt). -/
structure Digest where
  version : String
  cost : Nat
  salt : String
  body : String
deriving DecidableEq, Repr

/-- The digest in its wire form, mirroring the bcrypt format
`$2b$cost$salthash`. -/
def renderDigest (d : Digest) : String :=
  "$" ++ d.version ++ "$" ++ toString d.cost ++ "$" ++ d.salt ++ d.body

/-- Model of `bcrypt.hash(password, cost)` with the salt drawn by the library
made explicit as an argument. -/
def bcryptHash (password salt : String) (cost : Nat) : Digest :=
  { version := "2b", cost := cost, salt := salt, body := bcryptKdf password salt cost }

/-- Model of `bcrypt.compare(password, digest)`: re-derive the hash part from
the candidate password using the salt and cost recorded in the digest and
compare. -/
def bcryptCompare (password : String) (d : Digest) : Bool :=
  d.body == bcryptKdf password d.salt d.cost

/-- Outcome of the awaited `bcrypt.hash` call, made explicit: the library
either resolves (having drawn `salt`) or rejects with an `Error` instance. -/
inductive BcryptOutcome where
  | ok (salt : String)
  | rejected (message : String)
deriving DecidableEq, Repr

/-- Embedding of `hashPassword` from `src/services/auth.service.js`: returns
`await bcrypt.hash(password, 10)`; in the catch clause the source throws
`new error('Error hashing')` where `error` (lower case) is the caught value —
an `Error` instance, not a constructor — so the `new` expression raises a
`TypeError` (see `jsNew`). -/
def hashPassword (outcome : BcryptOutcome) (password : String) : Except JsError Digest :=
  match outcome with
  | .ok salt => .ok (bcryptHash password salt 10)
  | .rejected m => .error (jsNew (.errorInstance m) "Error hashing")

/-! ## User Registration Service (`createUser`, documented in WARP.md; its
source file is not included) -/

/-- A persisted account record (the `users` table of `src/models/user.model.js`
as documented). -/
structure Account where
  id : Nat
  name : String
  email : String
  passwordDigest : String
  role : String
  createdAt : Nat
  updatedAt : Nat
deriving DecidableEq, Repr

/-- The projection of an account returned to callers, excluding the digest
(spec: AccountView). -/
structure AccountView where
  id : Nat
  name : String
  email : String
  role : String
deriving DecidableEq, Repr

/-- Validated registration input as extracted by the controller. -/
structure RegistrationInput where
  name : String
  email : String
  password : String
  role : String
deriving DecidableEq, Repr

/-- Model of the persistence query
`db.select().from(users).where(eq(users.email, email)).limit(1)`: the first
stored account whose email matches exactly. -/
def findByEmail (db : List Account) (email : String) : Option Account :=
  db.find? (fun a => a.email == email)

/-- The serial id the database assigns to the next inserted row. -/
def nextId (db : List Account) : Nat :=
  db.foldl (fun m a => max m a.id) 0 + 1

/-- Result of a `createUser` call: the returned view or thrown error, the
database state afterwards, and how many times the Password Hasher was
invoked. -/
structure CreateUserOutcome where
  result : Except JsError AccountView
  db : List Account
  hashCalls : Nat
deriving Repr

/-- Modelled from the spec: `createUser` of `src/services/auth.service.js` is
documented (WARP.md, spec 4.4) but its source is not included. In order: query
for an existing account with the same email; if found, throw the duplicate
error (the message the controller recognises) with no further step executed;
otherwise hash the password (cost 10), insert the record and return the
AccountView with the generated id. -/
def createUser (db : List Account) (salt : String) (now : Nat)
    (input : RegistrationInput) : CreateUserOutcome :=
  match findByEmail db input.email with
  | some _ =>
    { result := .error (.errorObj "User with this email already exists")
      db := db
      hashCalls := 0 }
  | none =>
    let digest := renderDigest (bcryptHash input.password salt 10)
    let acc : Account :=
      { id := nextId db, name := input.name, email := input.email
        passwordDigest := digest, role := input.role
        createdAt := now, updatedAt := now }
    { result := .ok { id := acc.id, name := acc.name, email := acc.email, role := acc.role }
      db := db ++ [acc]
      hashCalls := 1 }

/-! ## Cookie Policy (`src/utils/cookies.js`, documented in WARP.md; its
source file is not included) -/

/-- The attribute set carried by a session cookie. -/
structure CookieAttrs where
  httpOnly : Bool
  sameSite : String
  secure : Bool
  maxAge : Nat
deriving DecidableEq, Repr

/-- Per-call overrides: each attribute may or may not be supplied. -/
structure CookieOverrides where
  httpOnly : Option Bool := none
  sameSite : Option String := none
  secure : Option Bool := none
  maxAge : Option Nat := none
deriving DecidableEq, Repr

/-- Modelled from the spec: `cookies.getOptions()` — HTTP-only always true,
same-site strict, secure exactly when `NODE_ENV === 'production'`, and a fixed
default max age of 15 minutes (in milliseconds). -/
def cookies.getOptions (production : Bool) : CookieAttrs :=
  { httpOnly := true, sameSite := "strict", secure := production, maxAge := 15 * 60 * 1000 }

/-- Modelled from the spec: the merge `{...getOptions(), ...options}` used by
`cookies.set` — a supplied override wins per attribute. -/
def mergeOptions (base : CookieAttrs) (ov : CookieOverrides) : CookieAttrs :=
  { httpOnly := ov.httpOnly.getD base.httpOnly
    sameSite := ov.sameSite.getD base.sameSite
    secure := ov.secure.getD base.secure
    maxAge := ov.maxAge.getD base.maxAge }

/-- Modelled from the spec: `cookies.set(res, name, value, options)` appends
the cookie with merged attributes to the response. -/
def cookies.set (production : Bool) (resCookies : List (String × String × CookieAttrs))
    (name value : String) (ov : CookieOverrides) : List (String × String × CookieAttrs) :=
  resCookies ++ [(name, value, mergeOptions (cookies.getOptions production) ov)]

/-! ## Registration Controller (`signup` in `src/services/auth.service.js`) -/

/-- A JSON value in a response body (the shapes used by the controller). -/
inductive Json where
  | str (s : String)
  | num (n : Nat)
deriving DecidableEq, Repr

/-- An HTTP response as shaped by the controller: status plus a JSON object
body given as key/value fields in order. -/
structure HttpResponse where
  status : Nat
  body : List (String × Json)
deriving DecidableEq, Repr

/-- Everything observable about one `signup` call: the response, how many
times `createUser` and `jwttoken.sign` were invoked, the names of cookies set
on the response, and the database state afterwards. -/
structure SignupEffects where
  response : HttpResponse
  createUserCalls : Nat
  signCalls : Nat
  cookiesSet : List String
  db : List Account
deriving DecidableEq, Repr

/-- Embedding of the `signup` controller from `src/services/auth.service.js`.
The `signupSchema.safeParse` gate is external (zod): its result is passed in
as `validated`. On failure the controller returns 400 with the formatted
details (external, abstracted as `details`). On success the source extracts
`{name, email, role}`, contains only the placeholder comment `//Auth service`
where the service call belongs, logs, and responds 201 with the literal body
`{message: 'User registered', Id: 1, name, email, role}` — it makes no
`createUser` call, signs no token and sets no cookie, so nothing in the `try`
block can throw and the catch branch (409 on the duplicate-email message) is
unreachable. -/
def signup (db : List Account) (validated : Option RegistrationInput)
    (details : String) : SignupEffects :=
  match validated with
  | none =>
    { response :=
        { status := 400
          body := [("error", .str "Validation failed"), ("details", .str details)] }
      createUserCalls := 0, signCalls := 0, cookiesSet := [], db := db }
  | some d =>
    { response :=
        { status := 201
          body := [("message", .str "User registered"), ("Id", .num 1),
                   ("name", .str d.name), ("email", .str d.email), ("role", .str d.role)] }
      createUserCalls := 0, signCalls := 0, cookiesSet := [], db := db }

/-! ## Helper lemmas -/

theorem scramble_length (s : String) : (scramble s).length = s.length := by
  show (s.data.map (fun c => Char.ofNat (c.toNat + 1))).length = s.length
  rw [List.length_map, String.length]

theorem string_length_append (s t : String) : (s ++ t).length = s.length + t.length := by
  rcases s with ⟨a⟩
  rcases t with ⟨b⟩
  show (a ++ b).length = a.length + b.length
  exact List.length_append a b

theorem renderDigest_hash_length (p salt : String) :
    (renderDigest (bcryptHash p salt 10)).length = 9 + 2 * salt.length + p.length := by
  have h1 : ("$" : String).length = 1 := rfl
  have h2 : ("2b" : String).length = 2 := rfl
  have h3 : (toString (10 : Nat)).length = 2 := rfl
  show ("$" ++ "2b" ++ "$" ++ toString (10 : Nat) ++ "$" ++ salt ++ bcryptKdf p salt 10).length =
    9 + 2 * salt.length + p.length
  simp only [bcryptKdf, string_length_append, scramble_length, h1, h2, h3]
  omega

/-! ## Claim theorems -/

/-- Claim C1 (code evaluated at the failing input): on a valid registration
input the `signup` controller as written makes zero `createUser` calls, signs
zero tokens, sets no cookie, and returns the hardcoded 201 body — contrary to
the claimed call to the User Registration Service, token signing, and cookie
attachment. -/
theorem signup_valid_input_skips_service_token_cookie :
    signup [] (some { name := "A", email := "a@x.com", password := "secret123", role := "user" }) "" =
      { response :=
          { status := 201
            body := [("message", .str "User registered"), ("Id", .num 1),
                     ("name", .str "A"), ("email", .str "a@x.com"), ("role", .str "user")] }
        createUserCalls := 0, signCalls := 0, cookiesSet := [], db := [] } := rfl

/-- Claim C2 (code evaluated at the failing input): the success body carries
the constant `Id = 1` under the capitalised key `Id` for two different
registrations, and has no lower-case `id` field at all — the identifier is not
server-assigned. -/
theorem signup_id_constant_across_inputs :
    ((signup [] (some { name := "A", email := "a@x.com", password := "secret123", role := "user" }) "").response.body.lookup "Id"
      = some (.num 1)) ∧
    ((signup [] (some { name := "B", email := "b@y.com", password := "hunter22", role := "admin" }) "").response.body.lookup "Id"
      = some (.num 1)) ∧
    ((signup [] (some { name := "A", email := "a@x.com", password := "secret123", role := "user" }) "").response.body.lookup "id"
      = none) := by
  refine ⟨rfl, rfl, rfl⟩

/-- Claim C3 (code evaluated at the failing input): with an account holding
email `a@x.com` already stored, a second registration with the same email
still answers 201 (not the claimed 409): the controller never invokes
`createUser`, so no DuplicateAccountError can arise and the 409 branch of the
catch clause is unreachable. -/
theorem signup_existing_email_still_201 :
    (signup
        [{ id := 1, name := "A", email := "a@x.com", passwordDigest := "h", role := "user",
           createdAt := 0, updatedAt := 0 }]
        (some { name := "A2", email := "a@x.com", password := "secret124", role := "user" })
        "").response.status = 201 ∧
    (signup
        [{ id := 1, name := "A", email := "a@x.com", passwordDigest := "h", role := "user",
           createdAt := 0, updatedAt := 0 }]
        (some { name := "A2", email := "a@x.com", password := "secret124", role := "user" })
        "").db =
      [{ id := 1, name := "A", email := "a@x.com", passwordDigest := "h", role := "user",
         createdAt := 0, updatedAt := 0 }] :=
  ⟨rfl, rfl⟩

/-- Claim C4: with the signing secret present, `jwttoken.sign` issues the
token with `iat = now` and `exp = now + 1 day`; verifying it immediately
succeeds and yields exactly the signed payload, and verification fails once
the clock exceeds issuance plus one day. -/
theorem jwttoken_sign_verify_roundtrip (secret : String) (v : Payload) (now : Nat) :
    jwttoken.sign (some secret) now v =
      .ok { payload := v, iat := now, exp := now + 86400,
            sig := jwtMac secret v now (now + 86400) } ∧
    jwttoken.verify (some secret) now
        (.wellFormed { payload := v, iat := now, exp := now + 86400,
                       sig := jwtMac secret v now (now + 86400) }) = .ok v ∧
    ∀ t, now + 86400 < t →
      jwttoken.verify (some secret) t
          (.wellFormed { payload := v, iat := now, exp := now + 86400,
                         sig := jwtMac secret v now (now + 86400) }) =
        .error (.errorObj "Failed to verify") := by
  refine ⟨rfl, ?_, ?_⟩
  · have hx : ¬ (now + 86400 ≤ now) := by omega
    simp [jwttoken.verify, jwtLibVerify, hx]
  · intro t ht
    have hx : now + 86400 ≤ t := Nat.le_of_lt ht
    simp [jwttoken.verify, jwtLibVerify, hx]

/-- Claim C4 witness: the round trip and the expiry failure at the concrete
secret `k`, payload `{id := 1, role := user}`, issuance time 0 and clock
90000. -/
theorem jwttoken_sign_verify_roundtrip_check :
    jwttoken.verify (some "k") 0
        (.wellFormed { payload := { id := 1, role := "user" }, iat := 0, exp := 0 + 86400,
                       sig := jwtMac "k" { id := 1, role := "user" } 0 (0 + 86400) }) =
      .ok { id := 1, role := "user" } ∧
    jwttoken.verify (some "k") 90000
        (.wellFormed { payload := { id := 1, role := "user" }, iat := 0, exp := 0 + 86400,
                       sig := jwtMac "k" { id := 1, role := "user" } 0 (0 + 86400) }) =
      .error (.errorObj "Failed to verify") :=
  ⟨(jwttoken_sign_verify_roundtrip "k" { id := 1, role := "user" } 0).2.1,
   (jwttoken_sign_verify_roundtrip "k" { id := 1, role := "user" } 0).2.2 90000 (by decide)⟩

/-- Claim C5: `hashPassword` returns `bcrypt.hash(password, 10)` — a salted
digest with cost factor 10 — the digest verifies against the original
plaintext, and its wire form is never the plaintext itself. -/
theorem hashPassword_bcrypt_roundtrip (p salt : String) :
    hashPassword (.ok salt) p = .ok (bcryptHash p salt 10) ∧
    bcryptCompare p (bcryptHash p salt 10) = true ∧
    (bcryptHash p salt 10).salt = salt ∧
    (bcryptHash p salt 10).cost = 10 ∧
    renderDigest (bcryptHash p salt 10) ≠ p := by
  refine ⟨rfl, ?_, rfl, rfl, ?_⟩
  · simp [bcryptCompare, bcryptHash]
  · intro h
    have hl := congrArg String.length h
    rw [renderDigest_hash_length] at hl
    omega

/-- Claim C5 witness: the digest of `secret123` with salt `ab` verifies and
is not the plaintext. -/
theorem hashPassword_bcrypt_roundtrip_check :
    bcryptCompare "secret123" (bcryptHash "secret123" "ab" 10) = true ∧
    renderDigest (bcryptHash "secret123" "ab" 10) ≠ "secret123" :=
  ⟨(hashPassword_bcrypt_roundtrip "secret123" "ab").2.1,
   (hashPassword_bcrypt_roundtrip "secret123" "ab").2.2.2.2⟩

/-- Claim C6: `jwttoken.verify` either succeeds — and then only on a
well-formed token whose signature matches the secret and whose expiry lies
strictly in the future, returning that token's complete payload — or fails
with the one uniform `Error` carrying `Failed to verify`, for malformed,
signature-mismatched and expired tokens alike; no other error kind is ever
produced. -/
theorem jwttoken_verify_uniform_error (secret : Option String) (now : Nat) (inp : TokenInput) :
    (∃ s t, secret = some s ∧ inp = TokenInput.wellFormed t ∧
      t.sig = jwtMac s t.payload t.iat t.exp ∧ now < t.exp ∧
      jwttoken.verify secret now inp = .ok t.payload) ∨
    jwttoken.verify secret now inp = .error (.errorObj "Failed to verify") := by
  cases secret with
  | none => exact Or.inr rfl
  | some s =>
    cases inp with
    | malformed m => exact Or.inr rfl
    | wellFormed t =>
      by_cases hsig : t.sig = jwtMac s t.payload t.iat t.exp
      · by_cases hexp : t.exp ≤ now
        · refine Or.inr ?_
          simp [jwttoken.verify, jwtLibVerify, hsig, hexp]
        · exact Or.inl ⟨s, t, rfl, rfl, hsig, not_le.mp hexp,
            by simp [jwttoken.verify, jwtLibVerify, hsig, hexp]⟩
      · refine Or.inr ?_
        simp [jwttoken.verify, jwtLibVerify, hsig]

/-- Claim C7 (code evaluated at the failing input): with the signing secret
absent, `jwttoken.sign` fails — but with a `TypeError` raised by the catch
clause itself (`logger.e` is not a method of the Winston logger), not with
the single intended signing error. -/
theorem jwttoken_sign_missing_secret_typeError :
    jwttoken.sign none 0 { id := 1, role := "user" } =
      .error (.typeError "logger.e is not a function") := rfl

/-- Claim C8: when an account with the requested email already exists,
`createUser` fails with the duplicate-account error, invokes the Password
Hasher zero times, and leaves the stored accounts unchanged. -/
theorem createUser_duplicate_short_circuits (db : List Account) (salt : String) (now : Nat)
    (input : RegistrationInput) (a : Account)
    (h : findByEmail db input.email = some a) :
    (createUser db salt now input).result =
      .error (.errorObj "User with this email already exists") ∧
    (createUser db salt now input).hashCalls = 0 ∧
    (createUser db salt now input).db = db := by
  simp [createUser, h]

/-- Claim C8 witness: a concrete database holding `a@x.com` and a second
registration for `a@x.com`. -/
theorem createUser_duplicate_short_circuits_check :
    (createUser
        [{ id := 1, name := "A", email := "a@x.com", passwordDigest := "h", role := "user",
           createdAt := 0, updatedAt := 0 }] "s" 7
        { name := "A2", email := "a@x.com", password := "secret124", role := "user" }).result =
      .error (.errorObj "User with this email already exists") ∧
    (createUser
        [{ id := 1, name := "A", email := "a@x.com", passwordDigest := "h", role := "user",
           createdAt := 0, updatedAt := 0 }] "s" 7
        { name := "A2", email := "a@x.com", password := "secret124", role := "user" }).hashCalls = 0 ∧
    (createUser
        [{ id := 1, name := "A", email := "a@x.com", passwordDigest := "h", role := "user",
           createdAt := 0, updatedAt := 0 }] "s" 7
        { name := "A2", email := "a@x.com", password := "secret124", role := "user" }).db =
      [{ id := 1, name := "A", email := "a@x.com", passwordDigest := "h", role := "user",
         createdAt := 0, updatedAt := 0 }] :=
  createUser_duplicate_short_circuits _ _ _ _ _ rfl

/-- Claim C9: the default cookie attribute set always has HTTP-only true and
same-site strict, sets the secure flag exactly when the production flag is
set, uses the fixed default max age of 15 minutes, and per-call overrides win
attribute by attribute in the merge used by `cookies.set`. -/
theorem cookies_defaults_and_overrides (production : Bool) (ov : CookieOverrides) :
    (cookies.getOptions production).httpOnly = true ∧
    (cookies.getOptions production).sameSite = "strict" ∧
    (cookies.getOptions production).secure = production ∧
    (cookies.getOptions production).maxAge = 15 * 60 * 1000 ∧
    mergeOptions (cookies.getOptions production) ov =
      { httpOnly := ov.httpOnly.getD true
        sameSite := ov.sameSite.getD "strict"
        secure := ov.secure.getD production
        maxAge := ov.maxAge.getD (15 * 60 * 1000) } :=
  ⟨rfl, rfl, rfl, rfl, rfl⟩

/-- Claim C10: when the bcrypt hash rejects, `hashPassword` throws the
`TypeError` produced by applying `new` to the caught non-constructor value,
and in particular never an `Error` with message `Error hashing`. -/
theorem hashPassword_rejection_is_typeError (m p : String) :
    hashPassword (.rejected m) p = .error (.typeError "error is not a constructor") ∧
    hashPassword (.rejected m) p ≠ .error (.errorObj "Error hashing") := by
  refine ⟨rfl, ?_⟩
  intro h
  simp [hashPassword, jsNew] at h

/-- Claim C10 witness: a concrete rejected hash call. -/
theorem hashPassword_rejection_is_typeError_check :
    hashPassword (.rejected "boom") "secret123" =
      .error (.typeError "error is not a constructor") ∧
    hashPassword (.rejected "boom") "secret123" ≠ .error (.errorObj "Error hashing") :=
  hashPassword_rejection_is_typeError "boom" "secret123"

/-- Claim C6 witness: a malformed token at a concrete secret and clock falls
into the uniform-error branch. -/
theorem jwttoken_verify_uniform_error_check :
    (∃ s t, (some "k" : Option String) = some s ∧
      TokenInput.malformed "zzz" = TokenInput.wellFormed t ∧
      t.sig = jwtMac s t.payload t.iat t.exp ∧ 5 < t.exp ∧
      jwttoken.verify (some "k") 5 (TokenInput.malformed "zzz") = .ok t.payload) ∨
    jwttoken.verify (some "k") 5 (TokenInput.malformed "zzz") =
      .error (.errorObj "Failed to verify") :=
  jwttoken_verify_uniform_error (some "k") 5 (TokenInput.malformed "zzz")

/-- Claim C9 witness: in production mode with every attribute overridden, the
defaults are as specified and each override wins. -/
theorem cookies_defaults_and_overrides_check :
    (cookies.getOptions true).httpOnly = true ∧
    (cookies.getOptions true).sameSite = "strict" ∧
    (cookies.getOptions true).secure = true ∧
    (cookies.getOptions true).maxAge = 15 * 60 * 1000 ∧
    mergeOptions (cookies.getOptions true)
        { httpOnly := some false, sameSite := some "lax", secure := some false,
          maxAge := some 60000 } =
      { httpOnly := false, sameSite := "lax", secure := false, maxAge := 60000 } :=
  cookies_defaults_and_overrides true
    { httpOnly := some false, sameSite := some "lax", secure := some false,
      maxAge := some 60000 }
